import Mathlib

/-!
Verification of the vu render binder, mesh store and cullers.

The development shallow-embeds three source files of the repository:
the OpenGL binder (package render, opengl.go), the mesh store
(package vu, mesh.go) and the cullers (package vu, culler.go).

Modelling conventions:
* Every call the binder issues to the graphics device is recorded as a
  `GLCall` value; a binder operation returns its updated state together
  with the list of device calls it issued, in issue order.
* A `Device` value interprets a call trace, tracking the device-side
  bound shader, framebuffer, depth-test flag, viewport, scissor flag
  and vertex-array binding.
* Go uint32 handles are `Nat`, int32 scalars are `Int`, float32/float64
  payloads are `Rat` (the culling and uniform arithmetic is exact in
  the claims considered, so rationals stand in for IEEE floats).
* `gl.GetError` reports no error for calls issued inside the model, so
  device-error state appears only as the `glErr` value injected at the
  entry of operations that check it (BindMesh, BindTexture).
* `gl.GenBuffers` and friends hand out fresh handles from an explicit
  counter threaded through the operations; a counter value of at least
  one keeps handles nonzero, as on a real device.
-/

namespace gl

def NO_ERROR : Nat := 0
def BLEND : Nat := 0x0BE2
def CULL_FACE : Nat := 0x0B44
def DEPTH_TEST : Nat := 0x0B71
def PROGRAM_POINT_SIZE : Nat := 0x8642
def SCISSOR_TEST : Nat := 0x0C11
def STATIC_DRAW : Nat := 0x88E4
def DYNAMIC_DRAW : Nat := 0x88E8
def COLOR_BUFFER_BIT : Nat := 0x4000
def DEPTH_BUFFER_BIT : Nat := 0x0100
def FRAMEBUFFER : Nat := 0x8D40
def LINES : Nat := 0x0001
def POINTS : Nat := 0x0000
def TRIANGLES : Nat := 0x0004
def UNSIGNED_SHORT : Nat := 0x1403
def UNSIGNED_BYTE : Nat := 0x1401
def FLOAT : Nat := 0x1406
def FRONT_AND_BACK : Nat := 0x0408
def LINE : Nat := 0x1B01
def FILL : Nat := 0x1B02
def TEXTURE_2D : Nat := 0x0DE1
def TEXTURE0 : Nat := 0x84C0
def ARRAY_BUFFER : Nat := 0x8892
def ELEMENT_ARRAY_BUFFER : Nat := 0x8893
def RGBA : Nat := 0x1908
def DEPTH_COMPONENT : Nat := 0x1902
def DEPTH_COMPONENT16 : Nat := 0x81A5
def RENDERBUFFER : Nat := 0x8D41
def DEPTH_ATTACHMENT : Nat := 0x8D00
def COLOR_ATTACHMENT0 : Nat := 0x8CE0
def FRAMEBUFFER_COMPLETE : Nat := 0x8CD5
def NONE : Nat := 0
def TEXTURE_MAX_LEVEL : Nat := 0x813D
def TEXTURE_WRAP_S : Nat := 0x2802
def TEXTURE_WRAP_T : Nat := 0x2803
def CLAMP_TO_EDGE : Nat := 0x812F
def REPEAT : Nat := 0x2901
def TEXTURE_MAG_FILTER : Nat := 0x2800
def TEXTURE_MIN_FILTER : Nat := 0x2801
def LINEAR : Nat := 0x2601
def NEAREST : Nat := 0x2600
def NEAREST_MIPMAP_LINEAR : Nat := 0x2702
def TEXTURE_COMPARE_FUNC : Nat := 0x884D
def TEXTURE_COMPARE_MODE : Nat := 0x884C
def LEQUAL : Nat := 0x0203
def COMPARE_REF_TO_TEXTURE : Nat := 0x884E

end gl

/-- LayerSize is the fixed square resolution of off-screen render targets.
Modelled from the spec: the constant is declared elsewhere in the render
package (not under src/); the spec only calls it a configured layer size,
so any fixed positive value serves. -/
def LayerSize : Int := 512

/-- One call issued to the graphics device, in the order the binder
issues them.  `Log` records a log.Printf event. -/
inductive GLCall where
  | Enable (cap : Nat)
  | Disable (cap : Nat)
  | ScissorBox (x y w h : Int)
  | BindFramebuffer (target fbo : Nat)
  | Viewport (x y w h : Int)
  | Clear (mask : Nat)
  | UseProgram (p : Nat)
  | BindVertexArray (vao : Nat)
  | PolygonMode (face mode : Nat)
  | DrawElements (mode : Nat) (count : Int) (ty : Nat) (off : Int)
  | DrawArrays (mode : Nat) (first count : Int)
  | DrawElementsInstanced (mode : Nat) (count : Int) (ty : Nat) (off instances : Int)
  | UniformMatrix3x4fv (ref : Int) (count : Int)
  | UniformMatrix4fv (ref : Int)
  | Uniform1i (ref : Int) (v : Int)
  | Uniform1f (ref : Int) (a : Rat)
  | Uniform2f (ref : Int) (a b : Rat)
  | Uniform3f (ref : Int) (a b c : Rat)
  | Uniform4f (ref : Int) (a b c d : Rat)
  | ActiveTexture (unit : Nat)
  | BindTexture (target tid : Nat)
  | GenVertexArrays (handle : Nat)
  | GenBuffers (handle : Nat)
  | GenTextures (handle : Nat)
  | GenFramebuffers (handle : Nat)
  | GenRenderbuffers (handle : Nat)
  | BindBuffer (target buf : Nat)
  | BufferData (target : Nat) (size : Int) (usage : Nat)
  | BufferSubData (target : Nat) (off size : Int)
  | VertexAttribPointer (lloc : Nat) (span : Int) (ty : Nat) (normalize : Bool) (stride off : Int)
  | EnableVertexAttribArray (lloc : Nat)
  | VertexAttribDivisor (lloc : Nat) (divisor : Nat)
  | TexImage2D (target : Nat) (level : Int) (internal : Nat) (w h : Int) (border : Int)
      (format ty : Nat)
  | TexParameteri (target pname : Nat) (v : Nat)
  | GenerateMipmap (target : Nat)
  | BindRenderbuffer (target rb : Nat)
  | RenderbufferStorage (target internal : Nat) (w h : Int)
  | FramebufferRenderbuffer (target attach rbTarget rb : Nat)
  | FramebufferTexture (target attach tid : Nat) (level : Int)
  | DrawBuffers (n : Int) (buf : Nat)
  | DrawBuffer (buf : Nat)
  | CreateProgram (p : Nat)
  | BindProgram (p : Nat)
  | Log (msg : String)
  deriving DecidableEq

/-- A texture reference inside a draw descriptor (render package `tex`):
a binding order and a device texture handle. -/
structure Tex where
  order : Nat
  tid : Nat
  deriving DecidableEq

/-- Primitive draw modes of the render package (Lines, Points, Triangles). -/
inductive Mode where
  | Lines
  | Points
  | Triangles
  deriving DecidableEq

/-- Draw descriptor consumed by opengl.Render (render package `Draw`).
The Go maps d.Uniforms and d.UniformData are modelled as association
lists; Render iterates d.Uniforms in list order (Go map iteration order
is unspecified, and no claim depends on it). -/
structure Draw where
  Shader : Nat
  Vao : Nat
  Mode : Mode
  FaceCnt : Int
  VertCnt : Int
  Instances : Int
  Fbo : Nat
  Depth : Bool
  Scissor : Bool
  Sx : Int
  Sy : Int
  Sw : Int
  Sh : Int
  Uniforms : List (String × Int)
  UniformData : List (Int × List Rat)
  Poses : List Rat
  NumPoses : Int
  Shtex : Nat
  Texs : List Tex
  Tag : Nat
  deriving DecidableEq

/-- The opengl binder state (struct opengl): cached depth-test flag,
shader, framebuffer, and remembered viewport size. -/
structure opengl where
  depthTest : Bool
  shader : Nat
  fbo : Nat
  vw : Int
  vh : Int
  deriving DecidableEq

/-- Device-side bound state, reconstructed by interpreting a call trace. -/
structure Device where
  dShader : Nat
  dFbo : Nat
  dDepth : Bool
  dVw : Int
  dVh : Int
  dScissor : Bool
  dVao : Nat
  deriving DecidableEq

/-- Interpretation of a single device call on the device-side state. -/
def Device.applyCall (dev : Device) : GLCall → Device
  | .Enable cap =>
      if cap = gl.DEPTH_TEST then { dev with dDepth := true }
      else if cap = gl.SCISSOR_TEST then { dev with dScissor := true }
      else dev
  | .Disable cap =>
      if cap = gl.DEPTH_TEST then { dev with dDepth := false }
      else if cap = gl.SCISSOR_TEST then { dev with dScissor := false }
      else dev
  | .UseProgram p => { dev with dShader := p }
  | .BindFramebuffer _ f => { dev with dFbo := f }
  | .Viewport _ _ w h => { dev with dVw := w, dVh := h }
  | .BindVertexArray v => { dev with dVao := v }
  | _ => dev

/-- Run a call trace against the device. -/
def Device.run (dev : Device) (calls : List GLCall) : Device :=
  calls.foldl Device.applyCall dev

/-- strings.HasPrefix from the Go standard library. -/
def strStarts (s pre : String) : Bool :=
  pre.data.isPrefixOf s.data

/-- Maximal run of leading decimal digits of a character list. -/
def leadDigits : List Char → List Char
  | [] => []
  | c :: rest => if c.isDigit then c :: leadDigits rest else []

/-- fmt.Sscanf(key, "uv%d", &index): parses the decimal suffix after
"uv"; when nothing parses the index keeps its zero value, as in Go. -/
def uvIndex (key : String) : Nat :=
  let ds := leadDigits (key.data.drop 2)
  if ds = [] then 0
  else ds.foldl (fun a c => a * 10 + (c.toNat - 48)) 0

/-- The loop over d.Texs in the "uv" branch of bindUniforms: bind the
first texture whose order matches the parsed index, then break. -/
def uvTexCalls (ref : Int) (index : Nat) : List Tex → List GLCall
  | [] => []
  | t :: rest =>
      if t.order = index then
        [.Uniform1i ref (Int.ofNat t.order), .ActiveTexture (gl.TEXTURE0 + t.order),
         .BindTexture gl.TEXTURE_2D t.tid]
      else uvTexCalls ref index rest

/-- Device calls issued for one uniform name/reference pair by
opengl.bindUniforms.  The per-key gl.GetError check reports NO_ERROR in
this model (no modelled call raises a device error), so it logs nothing. -/
def uniformKeyCalls (d : Draw) (key : String) (ref : Int) : List GLCall :=
  if key = "bpos" then
    if d.Poses.length > 0 then
      [.UniformMatrix3x4fv ref d.NumPoses]
    else
      [.Log ("Animation data expected for " ++ toString d.Tag)]
  else if key = "sm" then
    [.Uniform1i ref 15, .ActiveTexture (gl.TEXTURE0 + 15), .BindTexture gl.TEXTURE_2D d.Shtex]
  else if strStarts key "uv" then
    uvTexCalls ref (uvIndex key) d.Texs
  else
    match d.UniformData.lookup ref with
    | none => [.Log ("No uniform data for " ++ toString d.Tag ++ " " ++ key)]
    | some data =>
      if data.length = 1 then [.Uniform1f ref (data.getD 0 0)]
      else if data.length = 2 then [.Uniform2f ref (data.getD 0 0) (data.getD 1 0)]
      else if data.length = 3 then
        [.Uniform3f ref (data.getD 0 0) (data.getD 1 0) (data.getD 2 0)]
      else if data.length = 4 then
        [.Uniform4f ref (data.getD 0 0) (data.getD 1 0) (data.getD 2 0) (data.getD 3 0)]
      else if data.length = 16 then [.UniformMatrix4fv ref]
      else [.Log ("Failed to bind " ++ toString d.Tag ++ " " ++ key ++ " " ++
                  toString data.length)]

/-- The loop of opengl.bindUniforms over the expected uniforms. -/
def bindUniformsList (d : Draw) : List (String × Int) → List GLCall
  | [] => []
  | (key, ref) :: rest => uniformKeyCalls d key ref ++ bindUniformsList d rest

/-- opengl.bindUniforms (the gc receiver is unused in the source). -/
def opengl.bindUniforms (d : Draw) : List GLCall :=
  bindUniformsList d d.Uniforms

/-- Scissor-enable prologue of opengl.Render. -/
def scissorOn (d : Draw) : List GLCall :=
  if d.Scissor then [.Enable gl.SCISSOR_TEST, .ScissorBox d.Sx d.Sy d.Sw d.Sh] else []

/-- Depth-test state switch of opengl.Render, elided when the cached
value already matches. -/
def depthCalls (cached : Bool) (d : Draw) : List GLCall :=
  if cached = d.Depth then []
  else [if d.Depth then .Enable gl.DEPTH_TEST else .Disable gl.DEPTH_TEST]

/-- Framebuffer switch of opengl.Render, elided when the cached value
already matches; switching to the default framebuffer restores the
remembered viewport, switching away clears depth and sets the layer
viewport. -/
def fboCalls (cachedFbo : Nat) (vw vh : Int) (d : Draw) : List GLCall :=
  if cachedFbo = d.Fbo then []
  else
    .BindFramebuffer gl.FRAMEBUFFER d.Fbo ::
      (if d.Fbo = 0 then [.Viewport 0 0 vw vh]
       else [.Clear gl.DEPTH_BUFFER_BIT, .Viewport 0 0 LayerSize LayerSize])

/-- Shader switch of opengl.Render, elided when the cached value
already matches. -/
def shaderCalls (cachedShader : Nat) (d : Draw) : List GLCall :=
  if cachedShader = d.Shader then [] else [.UseProgram d.Shader]

/-- Primitive submission of opengl.Render per draw mode. -/
def drawCalls (d : Draw) : List GLCall :=
  match d.Mode with
  | .Lines =>
      [.PolygonMode gl.FRONT_AND_BACK gl.LINE,
       .DrawElements gl.LINES d.FaceCnt gl.UNSIGNED_SHORT 0,
       .PolygonMode gl.FRONT_AND_BACK gl.FILL]
  | .Points =>
      [.Enable gl.PROGRAM_POINT_SIZE,
       .DrawArrays gl.POINTS 0 d.VertCnt,
       .Disable gl.PROGRAM_POINT_SIZE]
  | .Triangles =>
      if d.Instances > 0 then
        [.DrawElementsInstanced gl.TRIANGLES d.FaceCnt gl.UNSIGNED_SHORT 0 d.Instances]
      else
        [.DrawElements gl.TRIANGLES d.FaceCnt gl.UNSIGNED_SHORT 0]

/-- Scissor-disable epilogue of opengl.Render. -/
def scissorOff (d : Draw) : List GLCall :=
  if d.Scissor then [.Disable gl.SCISSOR_TEST] else []

/-- opengl.Render: issues the scissor prologue, the three elided state
switches, the uniform binds, the vertex-array bind, the primitive draw,
the vertex-array unbind, and the scissor epilogue, updating the cache
exactly where the source assigns it. -/
def opengl.Render (gc : opengl) (d : Draw) : opengl × List GLCall :=
  let gc1 := if gc.depthTest = d.Depth then gc else { gc with depthTest := d.Depth }
  let gc2 := if gc1.fbo = d.Fbo then gc1 else { gc1 with fbo := d.Fbo }
  let gc3 := if gc2.shader = d.Shader then gc2 else { gc2 with shader := d.Shader }
  (gc3,
    scissorOn d ++ depthCalls gc.depthTest d ++ fboCalls gc1.fbo gc1.vw gc1.vh d ++
      shaderCalls gc2.shader d ++ opengl.bindUniforms d ++
      ([.BindVertexArray d.Vao] ++ drawCalls d ++ [.BindVertexArray 0]) ++ scissorOff d)

/-- opengl.Viewport: remembers the size and sets the device viewport. -/
def opengl.Viewport (gc : opengl) (width height : Int) : opengl × List GLCall :=
  ({ gc with vw := width, vh := height }, [.Viewport 0 0 width height])

theorem opengl.Render_state (gc : opengl) (d : Draw) :
    (opengl.Render gc d).1 = ⟨d.Depth, d.Shader, d.Fbo, gc.vw, gc.vh⟩ := by
  obtain ⟨dt, sh, fb, vw, vh⟩ := gc
  simp only [opengl.Render]
  split <;> split <;> split <;> simp_all

theorem opengl.Render_trace (gc : opengl) (d : Draw) :
    (opengl.Render gc d).2 =
      scissorOn d ++ depthCalls gc.depthTest d ++ fboCalls gc.fbo gc.vw gc.vh d ++
        shaderCalls gc.shader d ++ opengl.bindUniforms d ++
        ([.BindVertexArray d.Vao] ++ drawCalls d ++ [.BindVertexArray 0]) ++ scissorOff d := by
  obtain ⟨dt, sh, fb, vw, vh⟩ := gc
  simp only [opengl.Render]
  split <;> split <;> simp_all

/-- Payload of a vertex attribute channel: float32 data or byte data
(vertexData.floats / vertexData.bytes in the render package). -/
inductive Payload where
  | floats (v : List Rat)
  | bytes (v : List Nat)
  deriving DecidableEq

/-- A per-vertex attribute channel (render package vertexData): layout
location, span, usage hint, normalization and instancing flags, the CPU
payload, a per-buffer rebind flag and the device buffer handle. -/
structure vertexData where
  lloc : Nat
  span : Nat
  usage : Nat
  normalize : Bool
  instanced : Bool
  floats : List Rat
  bytes : List Nat
  rebind : Bool
  ref : Nat
  deriving DecidableEq

/-- The triangle-index channel (render package faceData): usage hint,
uint16 index payload, per-buffer rebind flag and device handle. -/
structure faceData where
  usage : Nat
  data : List Nat
  rebind : Bool
  ref : Nat
  deriving DecidableEq

/-- Modelled from the spec: render.NewVertexData (render package, not
under src/) creates a channel with the given layout parameters, an
empty payload, no device handle and a clear rebind flag. -/
def NewVertexData (lloc span usage : Nat) (normalize : Bool) : vertexData :=
  { lloc := lloc, span := span, usage := usage, normalize := normalize,
    instanced := false, floats := [], bytes := [], rebind := false, ref := 0 }

/-- Modelled from the spec: render.NewFaceData (render package, not
under src/) creates the index channel with an empty payload, no device
handle and a clear rebind flag. -/
def NewFaceData (usage : Nat) : faceData :=
  { usage := usage, data := [], rebind := false, ref := 0 }

/-- Modelled from the spec: vertexData.Set (render package, not under
src/) replaces the payload and sets the per-buffer rebind flag, which
is "set whenever any buffer data changes". -/
def vertexData.Set (vd : vertexData) : Payload → vertexData
  | .floats v => { vd with floats := v, bytes := [], rebind := true }
  | .bytes v => { vd with bytes := v, floats := [], rebind := true }

/-- Modelled from the spec: faceData.Set (render package, not under
src/) replaces the index payload and sets the per-buffer rebind flag. -/
def faceData.Set (fd : faceData) (v : List Nat) : faceData :=
  { fd with data := v, rebind := true }

/-- Modelled from the spec: render.Data.Len reports the number of
elements a channel holds — vertices for an attribute channel (payload
length over span), indices for the face channel. -/
def vertexData.Len (vd : vertexData) : Nat :=
  if vd.floats ≠ [] then vd.floats.length / vd.span else vd.bytes.length / vd.span

/-- Length of the face channel: the index payload length. -/
def faceData.Len (fd : faceData) : Nat := fd.data.length

/-- Mesh (package vu): GPU vertex-array handle, mesh-level rebind flag,
optional face channel and the per-slot attribute channels.  The Go map
vdata is an association list keyed by layout location. -/
structure Mesh where
  name : String
  vao : Nat
  rebind : Bool
  faces : Option faceData
  vdata : List (Nat × vertexData)
  deriving DecidableEq

/-- newMesh allocates an empty mesh. -/
def newMesh (name : String) : Mesh :=
  { name := name, vao := 0, rebind := false, faces := none, vdata := [] }

/-- Mesh.counts: the face count is the face channel length when
present; the vertex count is read from the channel at layout slot 0
when any channel exists.  When channels exist but slot 0 was never
initialized, the Go source dereferences a nil interface and panics;
the model returns none for that case. -/
def Mesh.counts (m : Mesh) : Option (Nat × Nat) :=
  let faces := match m.faces with
    | some fd => fd.Len
    | none => 0
  if m.vdata.length > 0 then
    match m.vdata.lookup 0 with
    | some vd => some (faces, vd.Len)
    | none => none
  else
    some (faces, 0)

/-- Mesh.InitData: creates the channel for a layout slot only if it is
absent. -/
def Mesh.InitData (m : Mesh) (lloc span usage : Nat) (normalize : Bool) : Mesh :=
  if (m.vdata.lookup lloc).isSome then m
  else { m with vdata := m.vdata ++ [(lloc, NewVertexData lloc span usage normalize)] }

/-- Mesh.SetData: stores data in an initialized slot and marks the mesh
as needing a rebind; a no-op on an uninitialized slot. -/
def Mesh.SetData (m : Mesh) (lloc : Nat) (p : Payload) : Mesh :=
  if (m.vdata.lookup lloc).isSome then
    { m with
      vdata := m.vdata.map (fun q => if q.1 = lloc then (q.1, q.2.Set p) else q),
      rebind := true }
  else m

/-- Mesh.InitFaces: creates the face channel only if it is absent. -/
def Mesh.InitFaces (m : Mesh) (usage : Nat) : Mesh :=
  match m.faces with
  | some _ => m
  | none => { m with faces := some (NewFaceData usage) }

/-- Mesh.SetFaces: stores index data and marks the mesh as needing a
rebind; a no-op when the face channel was never initialized. -/
def Mesh.SetFaces (m : Mesh) (data : List Nat) : Mesh :=
  match m.faces with
  | some fd => { m with faces := some (fd.Set data), rebind := true }
  | none => m

/-- The upload switch of opengl.bindVertexBuffer on the usage hint:
static float or byte payloads, or orphaned dynamic float payloads.
cap of the Go slice is modelled as its length. -/
def vertexDataCalls (vd : vertexData) : List GLCall :=
  let bytes : Int := 4
  if vd.usage = gl.STATIC_DRAW then
    if vd.floats.length > 0 then
      [.BindBuffer gl.ARRAY_BUFFER vd.ref,
       .BufferData gl.ARRAY_BUFFER (Int.ofNat vd.floats.length * bytes) vd.usage,
       .VertexAttribPointer vd.lloc (Int.ofNat vd.span) gl.FLOAT false 0 0] ++
      (if vd.instanced then
        (List.range 4).flatMap (fun cnt =>
          [.EnableVertexAttribArray (vd.lloc + cnt),
           .VertexAttribPointer (vd.lloc + cnt) 4 gl.FLOAT false (4 * 4 * 4)
             (Int.ofNat (cnt * 4 * 4)),
           .VertexAttribDivisor (vd.lloc + cnt) 1])
      else [.EnableVertexAttribArray vd.lloc])
    else if vd.bytes.length > 0 then
      [.BindBuffer gl.ARRAY_BUFFER vd.ref,
       .BufferData gl.ARRAY_BUFFER (Int.ofNat vd.bytes.length) vd.usage,
       .VertexAttribPointer vd.lloc (Int.ofNat vd.span) gl.UNSIGNED_BYTE vd.normalize 0 0,
       .EnableVertexAttribArray vd.lloc]
    else []
  else if vd.usage = gl.DYNAMIC_DRAW then
    if vd.floats.length > 0 then
      [.BindBuffer gl.ARRAY_BUFFER vd.ref,
       .BufferData gl.ARRAY_BUFFER (Int.ofNat vd.floats.length * bytes) vd.usage,
       .BufferSubData gl.ARRAY_BUFFER 0 (Int.ofNat vd.floats.length * bytes),
       .VertexAttribPointer vd.lloc (Int.ofNat vd.span) gl.FLOAT false 0 0,
       .EnableVertexAttribArray vd.lloc]
    else []
  else []

/-- opengl.bindVertexBuffer: allocates the device buffer handle if
absent, uploads the payload per the usage hint, then unbinds the array
buffer.  Returns the updated channel, the next fresh handle and the
issued calls. -/
def opengl.bindVertexBuffer (vd : vertexData) (next : Nat) :
    vertexData × Nat × List GLCall :=
  let vd2 := if vd.ref = 0 then { vd with ref := next } else vd
  let next2 := if vd.ref = 0 then next + 1 else next
  let genCalls : List GLCall := if vd.ref = 0 then [.GenBuffers next] else []
  (vd2, next2, genCalls ++ vertexDataCalls vd2 ++ [.BindBuffer gl.ARRAY_BUFFER 0])

/-- opengl.bindFaceBuffer: uploads the index payload when nonempty,
allocating the device handle if absent. -/
def opengl.bindFaceBuffer (fd : faceData) (next : Nat) :
    faceData × Nat × List GLCall :=
  if fd.data.length > 0 then
    let fd2 := if fd.ref = 0 then { fd with ref := next } else fd
    let next2 := if fd.ref = 0 then next + 1 else next
    let genCalls : List GLCall := if fd.ref = 0 then [.GenBuffers next] else []
    (fd2, next2,
      genCalls ++
        [.BindBuffer gl.ELEMENT_ARRAY_BUFFER fd2.ref,
         .BufferData gl.ELEMENT_ARRAY_BUFFER (Int.ofNat fd2.data.length * 2) fd2.usage])
  else (fd, next, [])

/-- The loop of opengl.BindMesh over the attribute channels: channels
whose rebind flag is set are uploaded and cleared, the rest are left
untouched. -/
def bindVDataList : List (Nat × vertexData) → Nat →
    List (Nat × vertexData) × Nat × List GLCall
  | [], next => ([], next, [])
  | (lloc, vd) :: rest, next =>
      let s :=
        if vd.rebind then
          ({ (opengl.bindVertexBuffer vd next).1 with rebind := false },
            (opengl.bindVertexBuffer vd next).2.1, (opengl.bindVertexBuffer vd next).2.2)
        else (vd, next, ([] : List GLCall))
      let t := bindVDataList rest s.2.1
      ((lloc, s.1) :: t.1, t.2.1, s.2.2 ++ t.2.2)

/-- The face-channel step of opengl.BindMesh: a present channel whose
rebind flag is set is uploaded and cleared; otherwise nothing is done. -/
def bindFDataStep (fdata : Option faceData) (next : Nat) :
    Option faceData × Nat × List GLCall :=
  match fdata with
  | some fd =>
      if fd.rebind then
        (some { (opengl.bindFaceBuffer fd next).1 with rebind := false },
          (opengl.bindFaceBuffer fd next).2.1, (opengl.bindFaceBuffer fd next).2.2)
      else (some fd, next, [])
  | none => (none, next, [])

/-- opengl.BindMesh: fails fast on a pending device error, reuses or
allocates the vertex-array handle, uploads every dirty channel and the
dirty face channel, and unbinds the vertex array.  The intermediate
gl.GetError checks report NO_ERROR in this model, so only the entry
check can fail. -/
def opengl.BindMesh (glErr : Nat) (vao : Nat) (vdata : List (Nat × vertexData))
    (fdata : Option faceData) (next : Nat) :
    Except String (Nat × List (Nat × vertexData) × Option faceData × Nat) × List GLCall :=
  if glErr ≠ gl.NO_ERROR then
    (.error ("BindMesh: fix prior error " ++ toString glErr), [])
  else
    let vao2 := if vao = 0 then next else vao
    let next1 := if vao = 0 then next + 1 else next
    let genCalls : List GLCall := if vao = 0 then [.GenVertexArrays next] else []
    let v := bindVDataList vdata next1
    let f := bindFDataStep fdata v.2.1
    (.ok (vao2, v.1, f.1, f.2.1),
      genCalls ++ [.BindVertexArray vao2] ++ v.2.2 ++ f.2.2 ++ [.BindVertexArray 0])

/-- Mesh.bind: clears the mesh-level rebind flag, then hands the mesh
to the engine.  Modelled from the spec: eng.bind (engine code, not
under src/) routes the mesh to the render binder, i.e. to
opengl.BindMesh on the rendering context. -/
def Mesh.bind (m : Mesh) (glErr : Nat) (next : Nat) :
    Mesh × Except String Unit × List GLCall :=
  let m := { m with rebind := false }
  match opengl.BindMesh glErr m.vao m.vdata m.faces next with
  | (.ok (vao, vdata, fdata, _), calls) =>
      ({ m with vao := vao, vdata := vdata, faces := fdata }, .ok (), calls)
  | (.error e, calls) => (m, .error e, calls)

/-- A decoded image handed to BindTexture: the two supported pixel
layouts, or any other Go image type carrying its type name. -/
inductive Img where
  | RGBA (w h : Int) (pix : List Nat)
  | NRGBA (w h : Int) (pix : List Nat)
  | Other (tyName : String) (w h : Int)
  deriving DecidableEq

/-- Width and height of an image (img.Bounds Dx and Dy). -/
def Img.size : Img → Int × Int
  | .RGBA w h _ => (w, h)
  | .NRGBA w h _ => (w, h)
  | .Other _ w h => (w, h)

/-- opengl.SetTextureMode: switches one texture between clamped and
repeating sampling. -/
def opengl.SetTextureMode (tid : Nat) (clamp : Bool) : List GLCall :=
  [.BindTexture gl.TEXTURE_2D tid,
   .TexParameteri gl.TEXTURE_2D gl.TEXTURE_MAX_LEVEL 7] ++
  (if clamp then
    [.TexParameteri gl.TEXTURE_2D gl.TEXTURE_WRAP_S gl.CLAMP_TO_EDGE,
     .TexParameteri gl.TEXTURE_2D gl.TEXTURE_WRAP_T gl.CLAMP_TO_EDGE]
  else
    [.TexParameteri gl.TEXTURE_2D gl.TEXTURE_WRAP_S gl.REPEAT,
     .TexParameteri gl.TEXTURE_2D gl.TEXTURE_WRAP_T gl.REPEAT]) ++
  [.TexParameteri gl.TEXTURE_2D gl.TEXTURE_MAG_FILTER gl.LINEAR,
   .TexParameteri gl.TEXTURE_2D gl.TEXTURE_MIN_FILTER gl.NEAREST_MIPMAP_LINEAR]

/-- opengl.BindTexture: logs a pending device error, generates a handle
when the incoming one is zero, binds it, then switches on the image
type; unsupported types return an error after the handle was already
generated and bound.  Supported types upload pixels, generate mipmaps
and apply the default repeat sampling.  Returns the result, the handle
value after the call, the next fresh handle and the trace. -/
def opengl.BindTexture (glErr : Nat) (tid : Nat) (img : Img) (next : Nat) :
    Except String Unit × Nat × Nat × List GLCall :=
  let logCalls : List GLCall :=
    if glErr ≠ gl.NO_ERROR then
      [.Log ("opengl:bindTexture find and fix prior error " ++ toString glErr)]
    else []
  let tid2 := if tid = 0 then next else tid
  let next2 := if tid = 0 then next + 1 else next
  let genCalls : List GLCall := if tid = 0 then [.GenTextures next] else []
  let bindCalls : List GLCall := [.BindTexture gl.TEXTURE_2D tid2]
  match img with
  | .Other tyName _ _ =>
      (.error ("Unsupported image format " ++ tyName), tid2, next2,
        logCalls ++ genCalls ++ bindCalls)
  | _ =>
      (.ok (), tid2, next2,
        logCalls ++ genCalls ++ bindCalls ++
          [.TexImage2D gl.TEXTURE_2D 0 gl.RGBA (img.size).1 (img.size).2 0 gl.RGBA
             gl.UNSIGNED_BYTE,
           .GenerateMipmap gl.TEXTURE_2D] ++
          opengl.SetTextureMode tid2 false)

/-- opengl.BindTarget: builds an off-screen color plus depth target of
the layer size and, crucially for the cache-coherence claim, resets the
device to the default framebuffer at the end without touching the
cached fbo.  The framebuffer status check succeeds in this model.
Returns the three handles, the next fresh handle and the trace. -/
def opengl.BindTarget (next : Nat) :
    Except String Unit × Nat × Nat × Nat × Nat × List GLCall :=
  let fbo := next
  let tid := next + 1
  let db := next + 2
  (.ok (), fbo, tid, db, next + 3,
    [.GenFramebuffers fbo, .BindFramebuffer gl.FRAMEBUFFER fbo,
     .GenTextures tid, .BindTexture gl.TEXTURE_2D tid,
     .TexImage2D gl.TEXTURE_2D 0 gl.RGBA LayerSize LayerSize 0 gl.RGBA gl.UNSIGNED_BYTE,
     .TexParameteri gl.TEXTURE_2D gl.TEXTURE_MAG_FILTER gl.NEAREST,
     .TexParameteri gl.TEXTURE_2D gl.TEXTURE_MIN_FILTER gl.NEAREST,
     .GenRenderbuffers db, .BindRenderbuffer gl.RENDERBUFFER db,
     .RenderbufferStorage gl.RENDERBUFFER gl.DEPTH_COMPONENT LayerSize LayerSize,
     .FramebufferRenderbuffer gl.FRAMEBUFFER gl.DEPTH_ATTACHMENT gl.RENDERBUFFER db,
     .FramebufferTexture gl.FRAMEBUFFER gl.COLOR_ATTACHMENT0 tid 0,
     .DrawBuffers 1 gl.COLOR_ATTACHMENT0,
     .BindFramebuffer gl.FRAMEBUFFER 0])

/-- opengl.BindMap: builds a depth-only shadow-map target and likewise
resets the device to the default framebuffer at the end without
touching the cached fbo. -/
def opengl.BindMap (next : Nat) :
    Except String Unit × Nat × Nat × Nat × List GLCall :=
  let fbo := next
  let tid := next + 1
  (.ok (), fbo, tid, next + 2,
    [.GenFramebuffers fbo, .BindFramebuffer gl.FRAMEBUFFER fbo,
     .GenTextures tid, .BindTexture gl.TEXTURE_2D tid,
     .TexImage2D gl.TEXTURE_2D 0 gl.DEPTH_COMPONENT16 LayerSize LayerSize 0
       gl.DEPTH_COMPONENT gl.FLOAT,
     .TexParameteri gl.TEXTURE_2D gl.TEXTURE_MAG_FILTER gl.LINEAR,
     .TexParameteri gl.TEXTURE_2D gl.TEXTURE_MIN_FILTER gl.LINEAR,
     .TexParameteri gl.TEXTURE_2D gl.TEXTURE_WRAP_S gl.CLAMP_TO_EDGE,
     .TexParameteri gl.TEXTURE_2D gl.TEXTURE_WRAP_T gl.CLAMP_TO_EDGE,
     .TexParameteri gl.TEXTURE_2D gl.TEXTURE_COMPARE_FUNC gl.LEQUAL,
     .TexParameteri gl.TEXTURE_2D gl.TEXTURE_COMPARE_MODE gl.COMPARE_REF_TO_TEXTURE,
     .FramebufferTexture gl.FRAMEBUFFER gl.DEPTH_ATTACHMENT tid 0,
     .DrawBuffer gl.NONE,
     .BindFramebuffer gl.FRAMEBUFFER 0])

/-- opengl.BindShader: creates a program handle and compiles and links
through the gl wrapper.  Modelled from the spec: gl.BindProgram (gl
wrapper package, not under src/) compiles and links without changing
the in-use program, and on failure the binder caches nothing; the
compileOk flag stands for the outcome of compilation. -/
def opengl.BindShader (compileOk : Bool) (next : Nat) :
    Except String Nat × Nat × List GLCall :=
  let program := next
  if compileOk then
    (.ok program, next + 1, [.CreateProgram program, .BindProgram program])
  else
    (.error "Failed to create shader program", next + 1,
      [.CreateProgram program, .BindProgram program])

/-- Camera of culler.go.  Modelled from the spec: the Camera type lives
in camera.go (package vu, not under src/); the culler consumes only its
position, its orientation as an opaque apply-rotation-to-a-point
operation (cam.at.Rot used through lin.MultSQ), and its squared
straight-line Distance operation. -/
structure Camera where
  px : Rat
  py : Rat
  pz : Rat
  rot : Rat × Rat × Rat → Rat × Rat × Rat

/-- Modelled from the spec: lin.MultSQ (math package, external per the
spec) applies the camera orientation quaternion to a vector. -/
def MultSQ (x y z : Rat) (rot : Rat × Rat × Rat → Rat × Rat × Rat) : Rat × Rat × Rat :=
  rot (x, y, z)

/-- Modelled from the spec: Camera.Distance (camera.go, not under src/)
returns the squared straight-line distance from the camera position to
the given point; the cullers operate purely on squared distances. -/
def Camera.Distance (cam : Camera) (wx wy wz : Rat) : Rat :=
  (wx - cam.px) * (wx - cam.px) + (wy - cam.py) * (wy - cam.py) +
    (wz - cam.pz) * (wz - cam.pz)

/-- frontCull: keeps a circular radius projected in front of the camera. -/
structure frontCull where
  radius : Rat
  rr : Rat

/-- NewFrontCull clamps a negative radius to zero. -/
def NewFrontCull (r : Rat) : frontCull :=
  let r := if r < 0 then 0 else r
  { radius := r, rr := r * r }

/-- frontCull.Culled: project the part location back along the look-at
vector by 0.8 of the radius, then cull when the squared distance to the
camera exceeds the squared radius. -/
def frontCull.Culled (fc : frontCull) (cam : Camera) (wx wy wz : Rat) : Bool :=
  let fudgeFactor : Rat := 8 / 10
  let (cx, cy, cz) := MultSQ 0 0 (-fc.radius * fudgeFactor) cam.rot
  let (wx, wy, wz) := (wx - cx, wy - cy, wz - cz)
  let toc := cam.Distance wx wy wz
  decide (toc > fc.rr)

/-- radiusCull: keeps everything within a radius of the camera. -/
structure radiusCull where
  rr : Rat

/-- NewRadiusCull clamps a negative radius to zero. -/
def NewRadiusCull (r : Rat) : radiusCull :=
  let r := if r < 0 then 0 else r
  { rr := r * r }

/-- radiusCull.Culled: cull when the squared distance from the camera
exceeds the squared radius. -/
def radiusCull.Culled (rc : radiusCull) (cam : Camera) (wx wy wz : Rat) : Bool :=
  decide (cam.Distance wx wy wz > rc.rr)

/-- Squared straight-line distance between two points, stated in the
words of the spec for comparison with the culler code. -/
def sqDist (ax ay az qx qy qz : Rat) : Rat :=
  (ax - qx) * (ax - qx) + (ay - qy) * (ay - qy) + (az - qz) * (az - qz)

/-- Calls that leave the interpreted device state unchanged. -/
def isIdCall : GLCall → Bool
  | .Enable cap => !(cap == gl.DEPTH_TEST) && !(cap == gl.SCISSOR_TEST)
  | .Disable cap => !(cap == gl.DEPTH_TEST) && !(cap == gl.SCISSOR_TEST)
  | .UseProgram _ => false
  | .BindFramebuffer _ _ => false
  | .Viewport _ _ _ _ => false
  | .BindVertexArray _ => false
  | _ => true

/-- Calls that leave the shader, framebuffer, depth and viewport parts
of the device state unchanged (they may touch scissor or vertex-array
state). -/
def keepsCore : GLCall → Bool
  | .Enable cap => !(cap == gl.DEPTH_TEST)
  | .Disable cap => !(cap == gl.DEPTH_TEST)
  | .UseProgram _ => false
  | .BindFramebuffer _ _ => false
  | .Viewport _ _ _ _ => false
  | _ => true

theorem applyCall_of_isIdCall (dev : Device) (c : GLCall) (h : isIdCall c = true) :
    dev.applyCall c = dev := by
  cases c <;> simp_all [isIdCall, Device.applyCall]

theorem run_of_all_isIdCall (dev : Device) (t : List GLCall)
    (h : t.all isIdCall = true) : dev.run t = dev := by
  induction t generalizing dev with
  | nil => rfl
  | cons c rest ih =>
      simp only [List.all_cons, Bool.and_eq_true] at h
      simp only [Device.run, List.foldl_cons]
      rw [applyCall_of_isIdCall dev c h.1]
      exact ih dev h.2

theorem applyCall_of_keepsCore (dev : Device) (c : GLCall) (h : keepsCore c = true) :
    (dev.applyCall c).dShader = dev.dShader ∧ (dev.applyCall c).dFbo = dev.dFbo ∧
      (dev.applyCall c).dDepth = dev.dDepth ∧ (dev.applyCall c).dVw = dev.dVw ∧
      (dev.applyCall c).dVh = dev.dVh := by
  cases c <;> simp_all [keepsCore, Device.applyCall] <;> split_ifs <;> simp_all

theorem run_of_all_keepsCore (dev : Device) (t : List GLCall)
    (h : t.all keepsCore = true) :
    (dev.run t).dShader = dev.dShader ∧ (dev.run t).dFbo = dev.dFbo ∧
      (dev.run t).dDepth = dev.dDepth ∧ (dev.run t).dVw = dev.dVw ∧
      (dev.run t).dVh = dev.dVh := by
  induction t generalizing dev with
  | nil => exact ⟨rfl, rfl, rfl, rfl, rfl⟩
  | cons c rest ih =>
      simp only [List.all_cons, Bool.and_eq_true] at h
      obtain ⟨h1, h2, h3, h4, h5⟩ := applyCall_of_keepsCore dev c h.1
      obtain ⟨g1, g2, g3, g4, g5⟩ := ih (dev.applyCall c) h.2
      simp only [Device.run, List.foldl_cons] at g1 g2 g3 g4 g5 ⊢
      exact ⟨g1.trans h1, g2.trans h2, g3.trans h3, g4.trans h4, g5.trans h5⟩

theorem run_append (dev : Device) (a b : List GLCall) :
    dev.run (a ++ b) = (dev.run a).run b := by
  simp [Device.run, List.foldl_append]

/-- Calls a uniform bind may issue: uniform uploads, texture unit
activity and log lines. -/
def isUniCall : GLCall → Bool
  | .UniformMatrix3x4fv _ _ => true
  | .UniformMatrix4fv _ => true
  | .Uniform1i _ _ => true
  | .Uniform1f _ _ => true
  | .Uniform2f _ _ _ => true
  | .Uniform3f _ _ _ _ => true
  | .Uniform4f _ _ _ _ _ => true
  | .ActiveTexture _ => true
  | .BindTexture _ _ => true
  | .Log _ => true
  | _ => false

theorem uvTexCalls_all (ref : Int) (idx : Nat) (ts : List Tex) :
    (uvTexCalls ref idx ts).all isUniCall = true := by
  induction ts with
  | nil => rfl
  | cons t rest ih =>
      simp only [uvTexCalls]
      split
      · rfl
      · exact ih

theorem uniformKeyCalls_all (d : Draw) (k : String) (ref : Int) :
    (uniformKeyCalls d k ref).all isUniCall = true := by
  unfold uniformKeyCalls
  split_ifs
  · rfl
  · rfl
  · rfl
  · exact uvTexCalls_all _ _ _
  · rcases hL : d.UniformData.lookup ref with _ | data
    · simp only [hL]; rfl
    · simp only [hL]
      split_ifs <;> rfl

theorem bindUniformsList_all (d : Draw) (l : List (String × Int)) :
    (bindUniformsList d l).all isUniCall = true := by
  induction l with
  | nil => rfl
  | cons p rest ih =>
      obtain ⟨k, ref⟩ := p
      simp only [bindUniformsList, List.all_append, Bool.and_eq_true]
      exact ⟨uniformKeyCalls_all d k ref, ih⟩

theorem isUniCall_isIdCall (c : GLCall) (h : isUniCall c = true) : isIdCall c = true := by
  cases c <;> simp_all [isUniCall, isIdCall]

theorem bindUniforms_all_id (d : Draw) : (opengl.bindUniforms d).all isIdCall = true := by
  have h := bindUniformsList_all d d.Uniforms
  unfold opengl.bindUniforms
  rw [List.all_eq_true] at h ⊢
  exact fun c hc => isUniCall_isIdCall c (h c hc)

theorem drawCalls_all_id (d : Draw) : (drawCalls d).all isIdCall = true := by
  rcases hm : d.Mode
  · simp only [drawCalls, hm]; rfl
  · simp only [drawCalls, hm]; rfl
  · simp only [drawCalls, hm]
    split <;> rfl

theorem filter_eq_nil_of_all (p q : GLCall → Bool) (t : List GLCall)
    (hpq : ∀ c, q c = true → p c = false) (h : t.all q = true) :
    t.filter p = [] := by
  induction t with
  | nil => rfl
  | cons c rest ih =>
      simp only [List.all_cons, Bool.and_eq_true] at h
      simp [List.filter_cons, hpq c h.1, ih h.2]

/-- Predicate for shader-bind device calls (gl.UseProgram). -/
def isShaderBind : GLCall → Bool
  | .UseProgram _ => true
  | _ => false

/-- Predicate for framebuffer-bind device calls. -/
def isFboBind : GLCall → Bool
  | .BindFramebuffer _ _ => true
  | _ => false

/-- Predicate for depth-test toggles on the device. -/
def isDepthToggle : GLCall → Bool
  | .Enable cap => cap == gl.DEPTH_TEST
  | .Disable cap => cap == gl.DEPTH_TEST
  | _ => false

/-- Number of shader-bind device calls in a trace. -/
def shaderBinds (t : List GLCall) : Nat := (t.filter isShaderBind).length

/-- Number of framebuffer-bind device calls in a trace. -/
def fboBinds (t : List GLCall) : Nat := (t.filter isFboBind).length

/-- Number of depth-test toggles in a trace. -/
def depthToggles (t : List GLCall) : Nat := (t.filter isDepthToggle).length

theorem bindUniforms_no_shaderBind (d : Draw) :
    (opengl.bindUniforms d).filter isShaderBind = [] :=
  filter_eq_nil_of_all _ _ _
    (by intro c hc; cases c <;> simp_all [isUniCall, isShaderBind])
    (bindUniformsList_all d d.Uniforms)

theorem bindUniforms_no_fboBind (d : Draw) :
    (opengl.bindUniforms d).filter isFboBind = [] :=
  filter_eq_nil_of_all _ _ _
    (by intro c hc; cases c <;> simp_all [isUniCall, isFboBind])
    (bindUniformsList_all d d.Uniforms)

theorem bindUniforms_no_depthToggle (d : Draw) :
    (opengl.bindUniforms d).filter isDepthToggle = [] :=
  filter_eq_nil_of_all _ _ _
    (by intro c hc; cases c <;> simp_all [isUniCall, isDepthToggle])
    (bindUniformsList_all d d.Uniforms)

theorem drawCalls_no_shaderBind (d : Draw) :
    (drawCalls d).filter isShaderBind = [] := by
  rcases hm : d.Mode <;> simp only [drawCalls, hm]
  · rfl
  · rfl
  · split <;> rfl

theorem drawCalls_no_fboBind (d : Draw) :
    (drawCalls d).filter isFboBind = [] := by
  rcases hm : d.Mode <;> simp only [drawCalls, hm]
  · rfl
  · rfl
  · split <;> rfl

theorem drawCalls_no_depthToggle (d : Draw) :
    (drawCalls d).filter isDepthToggle = [] := by
  rcases hm : d.Mode <;> simp only [drawCalls, hm]
  · rfl
  · rfl
  · split <;> rfl

theorem shaderBinds_Render (gc : opengl) (d : Draw) :
    shaderBinds (opengl.Render gc d).2 = if gc.shader = d.Shader then 0 else 1 := by
  rw [opengl.Render_trace]
  unfold shaderBinds
  simp only [List.filter_append, List.length_append, bindUniforms_no_shaderBind,
    drawCalls_no_shaderBind, List.length_nil]
  unfold scissorOn depthCalls fboCalls shaderCalls scissorOff
  split_ifs <;> simp [isShaderBind]

theorem fboBinds_Render (gc : opengl) (d : Draw) :
    fboBinds (opengl.Render gc d).2 = if gc.fbo = d.Fbo then 0 else 1 := by
  rw [opengl.Render_trace]
  unfold fboBinds
  simp only [List.filter_append, List.length_append, bindUniforms_no_fboBind,
    drawCalls_no_fboBind, List.length_nil]
  unfold scissorOn depthCalls fboCalls shaderCalls scissorOff
  split_ifs <;> simp [isFboBind]

theorem depthToggles_Render (gc : opengl) (d : Draw) :
    depthToggles (opengl.Render gc d).2 = if gc.depthTest = d.Depth then 0 else 1 := by
  rw [opengl.Render_trace]
  unfold depthToggles
  simp only [List.filter_append, List.length_append, bindUniforms_no_depthToggle,
    drawCalls_no_depthToggle, List.length_nil]
  unfold scissorOn depthCalls fboCalls shaderCalls scissorOff
  split_ifs <;> simp [isDepthToggle, gl.SCISSOR_TEST, gl.DEPTH_TEST, gl.PROGRAM_POINT_SIZE]

/-- C1: state-switch elision in Render.  Each of the three tracked
device transitions (shader UseProgram, framebuffer bind, depth-test
toggle) is issued exactly when the descriptor value differs from the
cached value — one device call when it differs, none when it matches —
and consequently two consecutive draws on one context issue one shader
bind when their shader handles agree and two when they differ, starting
from a cache that does not already hold the first handle. -/
theorem render_state_switch_elision :
    (∀ (gc : opengl) (d : Draw),
      shaderBinds (opengl.Render gc d).2 = if gc.shader = d.Shader then 0 else 1) ∧
    (∀ (gc : opengl) (d : Draw),
      fboBinds (opengl.Render gc d).2 = if gc.fbo = d.Fbo then 0 else 1) ∧
    (∀ (gc : opengl) (d : Draw),
      depthToggles (opengl.Render gc d).2 = if gc.depthTest = d.Depth then 0 else 1) ∧
    (∀ (gc : opengl) (d1 d2 : Draw), gc.shader ≠ d1.Shader → d1.Shader = d2.Shader →
      shaderBinds ((opengl.Render gc d1).2 ++ (opengl.Render (opengl.Render gc d1).1 d2).2)
        = 1) ∧
    (∀ (gc : opengl) (d1 d2 : Draw), gc.shader ≠ d1.Shader → d1.Shader ≠ d2.Shader →
      shaderBinds ((opengl.Render gc d1).2 ++ (opengl.Render (opengl.Render gc d1).1 d2).2)
        = 2) := by
  refine ⟨shaderBinds_Render, fboBinds_Render, depthToggles_Render, ?_, ?_⟩
  · intro gc d1 d2 h1 h12
    have hs : (opengl.Render gc d1).1.shader = d1.Shader := by
      rw [opengl.Render_state]
    unfold shaderBinds
    rw [List.filter_append, List.length_append]
    have e1 := shaderBinds_Render gc d1
    have e2 := shaderBinds_Render (opengl.Render gc d1).1 d2
    unfold shaderBinds at e1 e2
    rw [e1, e2, hs, if_neg h1, if_pos h12]
  · intro gc d1 d2 h1 h12
    have hs : (opengl.Render gc d1).1.shader = d1.Shader := by
      rw [opengl.Render_state]
    unfold shaderBinds
    rw [List.filter_append, List.length_append]
    have e1 := shaderBinds_Render gc d1
    have e2 := shaderBinds_Render (opengl.Render gc d1).1 d2
    unfold shaderBinds at e1 e2
    rw [e1, e2, hs, if_neg h1, if_neg h12]

/-- Predicate for scissor-test enables. -/
def isScissorEnable : GLCall → Bool
  | .Enable cap => cap == gl.SCISSOR_TEST
  | _ => false

/-- Predicate for scissor-test disables. -/
def isScissorDisable : GLCall → Bool
  | .Disable cap => cap == gl.SCISSOR_TEST
  | _ => false

/-- Calls that do not change the device scissor flag. -/
def keepsScissor : GLCall → Bool
  | .Enable cap => !(cap == gl.SCISSOR_TEST)
  | .Disable cap => !(cap == gl.SCISSOR_TEST)
  | _ => true

theorem applyCall_keepsScissor (dev : Device) (c : GLCall) (h : keepsScissor c = true) :
    (dev.applyCall c).dScissor = dev.dScissor := by
  cases c <;> simp_all [keepsScissor, Device.applyCall] <;> split_ifs <;> simp_all

theorem run_keepsScissor (dev : Device) (t : List GLCall)
    (h : t.all keepsScissor = true) : (dev.run t).dScissor = dev.dScissor := by
  induction t generalizing dev with
  | nil => rfl
  | cons c rest ih =>
      simp only [List.all_cons, Bool.and_eq_true] at h
      simp only [Device.run, List.foldl_cons]
      have := ih (dev.applyCall c) h.2
      simp only [Device.run] at this
      rw [this, applyCall_keepsScissor dev c h.1]

theorem bindUniforms_no_scissorEnable (d : Draw) :
    (opengl.bindUniforms d).filter isScissorEnable = [] :=
  filter_eq_nil_of_all _ _ _
    (by intro c hc; cases c <;> simp_all [isUniCall, isScissorEnable])
    (bindUniformsList_all d d.Uniforms)

theorem bindUniforms_no_scissorDisable (d : Draw) :
    (opengl.bindUniforms d).filter isScissorDisable = [] :=
  filter_eq_nil_of_all _ _ _
    (by intro c hc; cases c <;> simp_all [isUniCall, isScissorDisable])
    (bindUniformsList_all d d.Uniforms)

theorem drawCalls_no_scissorEnable (d : Draw) :
    (drawCalls d).filter isScissorEnable = [] := by
  rcases hm : d.Mode <;> simp only [drawCalls, hm]
  · rfl
  · rfl
  · split <;> rfl

theorem drawCalls_no_scissorDisable (d : Draw) :
    (drawCalls d).filter isScissorDisable = [] := by
  rcases hm : d.Mode <;> simp only [drawCalls, hm]
  · rfl
  · rfl
  · split <;> rfl

theorem scissorEnables_Render (gc : opengl) (d : Draw) :
    ((opengl.Render gc d).2.filter isScissorEnable).length =
      if d.Scissor then 1 else 0 := by
  rw [opengl.Render_trace]
  simp only [List.filter_append, List.length_append, bindUniforms_no_scissorEnable,
    drawCalls_no_scissorEnable, List.length_nil]
  unfold scissorOn depthCalls fboCalls shaderCalls scissorOff
  split_ifs <;>
    simp [isScissorEnable, gl.SCISSOR_TEST, gl.DEPTH_TEST, gl.PROGRAM_POINT_SIZE]

theorem scissorDisables_Render (gc : opengl) (d : Draw) :
    ((opengl.Render gc d).2.filter isScissorDisable).length =
      if d.Scissor then 1 else 0 := by
  rw [opengl.Render_trace]
  simp only [List.filter_append, List.length_append, bindUniforms_no_scissorDisable,
    drawCalls_no_scissorDisable, List.length_nil]
  unfold scissorOn depthCalls fboCalls shaderCalls scissorOff
  split_ifs <;>
    simp [isScissorDisable, gl.SCISSOR_TEST, gl.DEPTH_TEST, gl.PROGRAM_POINT_SIZE]

theorem bindUniforms_all_keepsScissor (d : Draw) :
    (opengl.bindUniforms d).all keepsScissor = true := by
  have h := bindUniformsList_all d d.Uniforms
  unfold opengl.bindUniforms
  rw [List.all_eq_true] at h ⊢
  intro c hc
  have := h c hc
  cases c <;> simp_all [isUniCall, keepsScissor]

theorem drawCalls_all_keepsScissor (d : Draw) :
    (drawCalls d).all keepsScissor = true := by
  rcases hm : d.Mode <;> simp only [drawCalls, hm]
  · rfl
  · rfl
  · split <;> rfl

theorem depthCalls_all_keepsScissor (b : Bool) (d : Draw) :
    (depthCalls b d).all keepsScissor = true := by
  unfold depthCalls
  split_ifs <;> rfl

theorem fboCalls_all_keepsScissor (f : Nat) (vw vh : Int) (d : Draw) :
    (fboCalls f vw vh d).all keepsScissor = true := by
  unfold fboCalls
  split_ifs <;> rfl

theorem shaderCalls_all_keepsScissor (s : Nat) (d : Draw) :
    (shaderCalls s d).all keepsScissor = true := by
  unfold shaderCalls
  split_ifs <;> rfl

theorem run_scissorOff_dVao (dev : Device) (d : Draw) :
    (dev.run (scissorOff d)).dVao = dev.dVao := by
  unfold scissorOff
  split_ifs
  · simp [Device.run, Device.applyCall, gl.SCISSOR_TEST, gl.DEPTH_TEST]
  · rfl

theorem render_dVao (gc : opengl) (d : Draw) (dev : Device) :
    (dev.run (opengl.Render gc d).2).dVao = 0 := by
  rw [opengl.Render_trace]
  rw [run_append, run_append, run_append, run_append, run_append, run_append, run_append]
  rw [run_scissorOff_dVao]
  simp [Device.run, Device.applyCall]

theorem render_scissor_final (gc : opengl) (d : Draw) (dev : Device)
    (h : d.Scissor = true) :
    (dev.run (opengl.Render gc d).2).dScissor = false := by
  rw [opengl.Render_trace]
  rw [run_append]
  unfold scissorOff
  rw [if_pos h]
  simp [Device.run, Device.applyCall, gl.SCISSOR_TEST, gl.DEPTH_TEST]

theorem render_scissor_untouched (gc : opengl) (d : Draw) (dev : Device)
    (h : d.Scissor = false) :
    (dev.run (opengl.Render gc d).2).dScissor = dev.dScissor := by
  rw [opengl.Render_trace]
  apply run_keepsScissor
  have h1 : scissorOn d = [] := by simp [scissorOn, h]
  have h2 : scissorOff d = [] := by simp [scissorOff, h]
  simp [h1, h2, List.all_append, depthCalls_all_keepsScissor,
    fboCalls_all_keepsScissor, shaderCalls_all_keepsScissor,
    bindUniforms_all_keepsScissor, drawCalls_all_keepsScissor, keepsScissor]

/-- A draw descriptor with every field zeroed; concrete test draws are
record updates of it. -/
def drawBase : Draw :=
  { Shader := 0, Vao := 0, Mode := .Triangles, FaceCnt := 0, VertCnt := 0,
    Instances := 0, Fbo := 0, Depth := false, Scissor := false,
    Sx := 0, Sy := 0, Sw := 0, Sh := 0, Uniforms := [], UniformData := [],
    Poses := [], NumPoses := 0, Shtex := 0, Texs := [], Tag := 0 }

/-- A freshly created opengl context (newRenderer returns the zero
struct). -/
def gc0 : opengl := { depthTest := false, shader := 0, fbo := 0, vw := 0, vh := 0 }

/-- A device whose bound state matches a freshly created context. -/
def dev0 : Device :=
  { dShader := 0, dFbo := 0, dDepth := false, dVw := 0, dVh := 0,
    dScissor := false, dVao := 0 }

/-- C8: per-draw scissor scoping.  A draw with d.Scissor set enables
the scissor test exactly once, issues the descriptor rectangle, and its
trace ends with the scissor disable, leaving the device scissor flag
false on every drawing branch; a draw with d.Scissor unset never
enables (or disables) the scissor test and leaves the device scissor
flag untouched; and every Render call leaves the device vertex-array
binding reset to 0, so neither setting leaks into a subsequent draw. -/
theorem render_scissor_scoping :
    (∀ (gc : opengl) (d : Draw),
      ((opengl.Render gc d).2.filter isScissorEnable).length =
        if d.Scissor then 1 else 0) ∧
    (∀ (gc : opengl) (d : Draw),
      ((opengl.Render gc d).2.filter isScissorDisable).length =
        if d.Scissor then 1 else 0) ∧
    (∀ (gc : opengl) (d : Draw), d.Scissor = true →
      GLCall.ScissorBox d.Sx d.Sy d.Sw d.Sh ∈ (opengl.Render gc d).2 ∧
        (opengl.Render gc d).2.getLast? = some (.Disable gl.SCISSOR_TEST)) ∧
    (∀ (gc : opengl) (d : Draw) (dev : Device), d.Scissor = true →
      (dev.run (opengl.Render gc d).2).dScissor = false) ∧
    (∀ (gc : opengl) (d : Draw) (dev : Device), d.Scissor = false →
      (dev.run (opengl.Render gc d).2).dScissor = dev.dScissor) ∧
    (∀ (gc : opengl) (d : Draw) (dev : Device),
      (dev.run (opengl.Render gc d).2).dVao = 0) := by
  refine ⟨scissorEnables_Render, scissorDisables_Render, ?_,
    render_scissor_final, render_scissor_untouched, render_dVao⟩
  intro gc d h
  constructor
  · rw [opengl.Render_trace]
    simp [List.mem_append, scissorOn, h]
  · rw [opengl.Render_trace]
    have hOff : scissorOff d = [.Disable gl.SCISSOR_TEST] := by simp [scissorOff, h]
    rw [hOff, List.getLast?_append_cons]
    rfl

/-- Witness for C8 at a concrete scissored draw on a fresh context. -/
theorem render_scissor_scoping_witness :
    (dev0.run (opengl.Render gc0 { drawBase with Scissor := true }).2).dScissor = false :=
  render_scissor_scoping.2.2.2.1 gc0 { drawBase with Scissor := true } dev0 rfl

/-- Witness for C1 at two concrete draws sharing shader handle 7 on a
fresh context: exactly one UseProgram in the combined trace. -/
theorem render_state_switch_elision_witness :
    shaderBinds ((opengl.Render gc0 { drawBase with Shader := 7 }).2 ++
      (opengl.Render (opengl.Render gc0 { drawBase with Shader := 7 }).1
        { drawBase with Shader := 7 }).2) = 1 :=
  render_state_switch_elision.2.2.2.1 gc0 { drawBase with Shader := 7 }
    { drawBase with Shader := 7 } (by decide) rfl

theorem run_scissorOn (dev : Device) (d : Draw) :
    dev.run (scissorOn d) =
      if d.Scissor then { dev with dScissor := true } else dev := by
  unfold scissorOn
  split_ifs <;> simp [Device.run, Device.applyCall, gl.SCISSOR_TEST, gl.DEPTH_TEST]

theorem run_depthCalls (dev : Device) (b : Bool) (d : Draw) :
    dev.run (depthCalls b d) =
      if b = d.Depth then dev else { dev with dDepth := d.Depth } := by
  unfold depthCalls
  split_ifs <;> simp_all [Device.run, Device.applyCall, gl.SCISSOR_TEST, gl.DEPTH_TEST]

theorem run_fboCalls (dev : Device) (f : Nat) (vw vh : Int) (d : Draw) :
    dev.run (fboCalls f vw vh d) =
      if f = d.Fbo then dev
      else
        { dev with
          dFbo := d.Fbo
          dVw := if d.Fbo = 0 then vw else LayerSize
          dVh := if d.Fbo = 0 then vh else LayerSize } := by
  unfold fboCalls
  split_ifs <;> simp_all [Device.run, Device.applyCall]

theorem run_shaderCalls (dev : Device) (s : Nat) (d : Draw) :
    dev.run (shaderCalls s d) =
      if s = d.Shader then dev else { dev with dShader := d.Shader } := by
  unfold shaderCalls
  split_ifs <;> simp_all [Device.run, Device.applyCall]

theorem run_bindUniforms (dev : Device) (d : Draw) :
    dev.run (opengl.bindUniforms d) = dev :=
  run_of_all_isIdCall _ _ (bindUniforms_all_id d)

theorem run_drawCalls (dev : Device) (d : Draw) :
    dev.run (drawCalls d) = dev :=
  run_of_all_isIdCall _ _ (drawCalls_all_id d)

theorem run_scissorOff (dev : Device) (d : Draw) :
    dev.run (scissorOff d) =
      if d.Scissor then { dev with dScissor := false } else dev := by
  unfold scissorOff
  split_ifs <;> simp [Device.run, Device.applyCall, gl.SCISSOR_TEST, gl.DEPTH_TEST]

theorem run_bindVao (dev : Device) (v : Nat) :
    dev.run [.BindVertexArray v] = { dev with dVao := v } := rfl

/-- Full device effect of one Render call: the three tracked states
move to the descriptor values exactly when the cache differed, the
viewport follows a framebuffer switch, the scissor flag ends false
when the draw was scissored, and the vertex array ends unbound. -/
theorem run_render (gc : opengl) (d : Draw) (dev : Device) :
    dev.run (opengl.Render gc d).2 =
      { dShader := if gc.shader = d.Shader then dev.dShader else d.Shader,
        dFbo := if gc.fbo = d.Fbo then dev.dFbo else d.Fbo,
        dDepth := if gc.depthTest = d.Depth then dev.dDepth else d.Depth,
        dVw := if gc.fbo = d.Fbo then dev.dVw
               else if d.Fbo = 0 then gc.vw else LayerSize,
        dVh := if gc.fbo = d.Fbo then dev.dVh
               else if d.Fbo = 0 then gc.vh else LayerSize,
        dScissor := if d.Scissor then false else dev.dScissor,
        dVao := 0 } := by
  rw [opengl.Render_trace]
  simp only [run_append]
  rw [run_scissorOn, run_depthCalls, run_fboCalls, run_shaderCalls, run_bindUniforms,
    run_bindVao, run_drawCalls, run_bindVao, run_scissorOff]
  split_ifs <;> rfl

theorem vertexDataCalls_all_keepsCore (vd : vertexData) :
    (vertexDataCalls vd).all keepsCore = true := by
  unfold vertexDataCalls
  split_ifs <;> rfl

theorem bindVertexBuffer_all_keepsCore (vd : vertexData) (next : Nat) :
    (opengl.bindVertexBuffer vd next).2.2.all keepsCore = true := by
  unfold opengl.bindVertexBuffer
  split_ifs <;>
    simp [List.all_append, vertexDataCalls_all_keepsCore, keepsCore]

theorem bindFaceBuffer_all_keepsCore (fd : faceData) (next : Nat) :
    (opengl.bindFaceBuffer fd next).2.2.all keepsCore = true := by
  unfold opengl.bindFaceBuffer
  split_ifs <;> rfl

theorem bindVDataList_all_keepsCore (l : List (Nat × vertexData)) (next : Nat) :
    (bindVDataList l next).2.2.all keepsCore = true := by
  induction l generalizing next with
  | nil => rfl
  | cons p rest ih =>
      obtain ⟨lloc, vd⟩ := p
      simp only [bindVDataList]
      split_ifs with h
      · simp [List.all_append, bindVertexBuffer_all_keepsCore, ih]
      · simp [ih]

theorem bindFDataStep_all_keepsCore (fdata : Option faceData) (next : Nat) :
    (bindFDataStep fdata next).2.2.all keepsCore = true := by
  rcases fdata with _ | fd
  · rfl
  · simp only [bindFDataStep]
    split_ifs with h
    · exact bindFaceBuffer_all_keepsCore fd next
    · rfl

theorem BindMesh_all_keepsCore (glErr vao : Nat) (vdata : List (Nat × vertexData))
    (fdata : Option faceData) (next : Nat) :
    (opengl.BindMesh glErr vao vdata fdata next).2.all keepsCore = true := by
  unfold opengl.BindMesh
  split_ifs <;>
    simp [List.all_append, bindVDataList_all_keepsCore, bindFDataStep_all_keepsCore,
      keepsCore]

theorem SetTextureMode_all_keepsCore (tid : Nat) (clamp : Bool) :
    (opengl.SetTextureMode tid clamp).all keepsCore = true := by
  unfold opengl.SetTextureMode
  split_ifs <;> rfl

theorem BindTexture_all_keepsCore (glErr tid : Nat) (img : Img) (next : Nat) :
    (opengl.BindTexture glErr tid img next).2.2.2.all keepsCore = true := by
  unfold opengl.BindTexture
  rcases img <;> split_ifs <;>
    simp [List.all_append, SetTextureMode_all_keepsCore, keepsCore]

theorem BindShader_all_keepsCore (ok : Bool) (next : Nat) :
    (opengl.BindShader ok next).2.2.all keepsCore = true := by
  unfold opengl.BindShader
  split_ifs <;> rfl

/-- The operations of the opengl binder considered by the cache
coherence claim, as invoked by callers. -/
inductive Op where
  | render (d : Draw)
  | viewport (w h : Int)
  | bindMesh (glErr : Nat) (vao : Nat) (vdata : List (Nat × vertexData))
      (fdata : Option faceData)
  | bindShader (compileOk : Bool)
  | bindTexture (glErr : Nat) (tid : Nat) (img : Img)
  | bindTarget
  | bindMap

/-- One binder operation applied to the cached state and the fresh
handle counter, returning the issued device calls. -/
def stepOp (s : opengl × Nat) (op : Op) : (opengl × Nat) × List GLCall :=
  match op with
  | .render d => (((opengl.Render s.1 d).1, s.2), (opengl.Render s.1 d).2)
  | .viewport w h => (((opengl.Viewport s.1 w h).1, s.2), (opengl.Viewport s.1 w h).2)
  | .bindMesh e vao vd fd =>
      ((s.1,
        match (opengl.BindMesh e vao vd fd s.2).1 with
        | .ok q => q.2.2.2
        | .error _ => s.2),
       (opengl.BindMesh e vao vd fd s.2).2)
  | .bindShader ok =>
      ((s.1, (opengl.BindShader ok s.2).2.1), (opengl.BindShader ok s.2).2.2)
  | .bindTexture e tid img =>
      ((s.1, (opengl.BindTexture e tid img s.2).2.2.1),
       (opengl.BindTexture e tid img s.2).2.2.2)
  | .bindTarget =>
      ((s.1, (opengl.BindTarget s.2).2.2.2.2.1), (opengl.BindTarget s.2).2.2.2.2.2)
  | .bindMap =>
      ((s.1, (opengl.BindMap s.2).2.2.2.1), (opengl.BindMap s.2).2.2.2.2)

/-- Run a sequence of binder operations from a cached state and a
device state. -/
def runOps (s : opengl × Nat) (dev : Device) : List Op → (opengl × Nat) × Device
  | [] => (s, dev)
  | op :: rest => runOps (stepOp s op).1 (dev.run (stepOp s op).2) rest

/-- Cache coherence between the binder cache and the device: the
cached shader, depth flag and framebuffer equal the bound ones, and
the cached viewport equals the device viewport whenever the default
framebuffer is bound. -/
def coherent (gc : opengl) (dev : Device) : Prop :=
  gc.shader = dev.dShader ∧ gc.depthTest = dev.dDepth ∧ gc.fbo = dev.dFbo ∧
    (dev.dFbo = 0 → gc.vw = dev.dVw ∧ gc.vh = dev.dVh)

/-- Precondition under which target construction keeps the cache
honest: BindTarget and BindMap may only run while the cached
framebuffer is the default one. -/
def targetSafe (gc : opengl) : Op → Prop
  | .bindTarget => gc.fbo = 0
  | .bindMap => gc.fbo = 0
  | _ => True

/-- The draw used by the coherence counterexample: an off-screen draw. -/
def cexDraw : Draw := { drawBase with Fbo := 1, Shader := 7 }

/-- The operation sequence of the coherence counterexample: set a
viewport, render to an off-screen framebuffer, then build a render
target. -/
def cexRun : (opengl × Nat) × Device :=
  runOps (gc0, 1) dev0 [.viewport 800 600, .render cexDraw, .bindTarget]

/-- C2 counterexample: after the binder-only sequence Viewport,
Render(Fbo 1), BindTarget, the cached fbo is 1 while the device is on
framebuffer 0 (BindTarget resets the device without updating the
cache), and the cached viewport is 800 wide while the device viewport
is the 512-wide layer size — so the cached state does not equal the
device state after every binder operation. -/
theorem binder_cache_counterexample :
    cexRun.1.1.fbo = 1 ∧ cexRun.2.dFbo = 0 ∧
      cexRun.1.1.vw = 800 ∧ cexRun.2.dVw = 512 ∧
      ¬ coherent cexRun.1.1 cexRun.2 := by
  refine ⟨by decide, by decide, by decide, by decide, ?_⟩
  intro h
  have hf := h.2.2.1
  revert hf
  decide

/-- C2 (amended): cache coherence.  After every binder operation the
cached shader, depth-test flag and framebuffer equal the device state,
and the cached viewport equals the device viewport while the default
framebuffer is bound — provided all device mutation routes through the
binder and BindTarget/BindMap are invoked only while the cached
framebuffer is the default one (they reset the device framebuffer to 0
without updating the cache, so this precondition is what keeps the
cache honest). -/
theorem binder_cache_coherent_step (gc : opengl) (next : Nat) (dev : Device) (op : Op)
    (h : coherent gc dev) (hts : targetSafe gc op) :
    coherent (stepOp (gc, next) op).1.1 (dev.run (stepOp (gc, next) op).2) := by
  obtain ⟨hsh, hdp, hfb, hvp⟩ := h
  cases op with
  | render d =>
      simp only [stepOp, coherent, opengl.Render_state, run_render]
      refine ⟨?_, ?_, ?_, ?_⟩
      · split_ifs <;> simp_all
      · split_ifs <;> simp_all
      · split_ifs <;> simp_all
      · by_cases hf : gc.fbo = d.Fbo
        · rw [if_pos hf, if_pos hf, if_pos hf]
          exact hvp
        · rw [if_neg hf, if_neg hf, if_neg hf]
          intro h0
          rw [if_pos h0, if_pos h0]
          exact ⟨rfl, rfl⟩
  | viewport w h =>
      simp only [stepOp, opengl.Viewport, coherent]
      have hrun : dev.run [GLCall.Viewport 0 0 w h] = { dev with dVw := w, dVh := h } := rfl
      rw [hrun]
      exact ⟨hsh, hdp, hfb, fun _ => ⟨rfl, rfl⟩⟩
  | bindMesh e vao vd fd =>
      simp only [stepOp, coherent]
      obtain ⟨g1, g2, g3, g4, g5⟩ :=
        run_of_all_keepsCore dev _ (BindMesh_all_keepsCore e vao vd fd next)
      rw [g1, g2, g3, g4, g5]
      exact ⟨hsh, hdp, hfb, hvp⟩
  | bindShader ok =>
      simp only [stepOp, coherent]
      obtain ⟨g1, g2, g3, g4, g5⟩ :=
        run_of_all_keepsCore dev _ (BindShader_all_keepsCore ok next)
      rw [g1, g2, g3, g4, g5]
      exact ⟨hsh, hdp, hfb, hvp⟩
  | bindTexture e tid img =>
      simp only [stepOp, coherent]
      obtain ⟨g1, g2, g3, g4, g5⟩ :=
        run_of_all_keepsCore dev _ (BindTexture_all_keepsCore e tid img next)
      rw [g1, g2, g3, g4, g5]
      exact ⟨hsh, hdp, hfb, hvp⟩
  | bindTarget =>
      have hf0 : gc.fbo = 0 := hts
      have hdev0 : dev.dFbo = 0 := by rw [← hfb]; exact hf0
      have hrun : dev.run (opengl.BindTarget next).2.2.2.2.2 = { dev with dFbo := 0 } := by
        simp [opengl.BindTarget, Device.run, Device.applyCall]
      simp only [stepOp, coherent, hrun]
      exact ⟨hsh, hdp, hf0, fun _ => hvp hdev0⟩
  | bindMap =>
      have hf0 : gc.fbo = 0 := hts
      have hdev0 : dev.dFbo = 0 := by rw [← hfb]; exact hf0
      have hrun : dev.run (opengl.BindMap next).2.2.2.2 = { dev with dFbo := 0 } := by
        simp [opengl.BindMap, Device.run, Device.applyCall]
      simp only [stepOp, coherent, hrun]
      exact ⟨hsh, hdp, hf0, fun _ => hvp hdev0⟩

/-- Witness for C2 at a concrete operation on a fresh coherent pair. -/
theorem binder_cache_coherent_step_witness :
    coherent (stepOp (gc0, 1) (Op.viewport 3 4)).1.1
      (dev0.run (stepOp (gc0, 1) (Op.viewport 3 4)).2) :=
  binder_cache_coherent_step gc0 1 dev0 (Op.viewport 3 4)
    ⟨rfl, rfl, rfl, fun _ => ⟨rfl, rfl⟩⟩ trivial

/-- Predicate for device upload calls (gl.BufferData). -/
def isBufferData : GLCall → Bool
  | .BufferData _ _ _ => true
  | _ => false

/-- Number of device upload (BufferData) calls in a trace. -/
def uploadCalls (t : List GLCall) : Nat := (t.filter isBufferData).length

theorem Mesh_bind_noerr (m : Mesh) (next : Nat) :
    Mesh.bind m gl.NO_ERROR next =
      ({ m with
          rebind := false
          vao := if m.vao = 0 then next else m.vao
          vdata := (bindVDataList m.vdata (if m.vao = 0 then next + 1 else next)).1
          faces := (bindFDataStep m.faces
            (bindVDataList m.vdata (if m.vao = 0 then next + 1 else next)).2.1).1 },
       Except.ok (),
       (if m.vao = 0 then [GLCall.GenVertexArrays next] else []) ++
         [GLCall.BindVertexArray (if m.vao = 0 then next else m.vao)] ++
         (bindVDataList m.vdata (if m.vao = 0 then next + 1 else next)).2.2 ++
         (bindFDataStep m.faces
           (bindVDataList m.vdata (if m.vao = 0 then next + 1 else next)).2.1).2.2 ++
         [GLCall.BindVertexArray 0]) := rfl

theorem bindVDataList_clean (l : List (Nat × vertexData)) (next : Nat) :
    ∀ q ∈ (bindVDataList l next).1, q.2.rebind = false := by
  induction l generalizing next with
  | nil => simp [bindVDataList]
  | cons p rest ih =>
      obtain ⟨lloc, vd⟩ := p
      simp only [bindVDataList]
      split_ifs with h
      · intro q hq
        rcases List.mem_cons.mp hq with rfl | hq
        · rfl
        · exact ih _ q hq
      · intro q hq
        rcases List.mem_cons.mp hq with rfl | hq
        · simpa using h
        · exact ih _ q hq

theorem bindVDataList_noop (l : List (Nat × vertexData)) (next : Nat)
    (h : ∀ q ∈ l, q.2.rebind = false) : bindVDataList l next = (l, next, []) := by
  induction l generalizing next with
  | nil => rfl
  | cons p rest ih =>
      obtain ⟨lloc, vd⟩ := p
      have hvd : vd.rebind = false := h (lloc, vd) (List.mem_cons_self _ _)
      simp only [bindVDataList, hvd, Bool.false_eq_true, if_false]
      rw [ih next (fun q hq => h q (List.mem_cons_of_mem _ hq))]
      rfl

theorem bindFDataStep_clean (fdata : Option faceData) (next : Nat) (fd2 : faceData)
    (h : (bindFDataStep fdata next).1 = some fd2) : fd2.rebind = false := by
  rcases fdata with _ | fd
  · simp [bindFDataStep] at h
  · simp only [bindFDataStep] at h
    split_ifs at h with hr
    · rw [Option.some_inj] at h
      rw [← h]
    · rw [Option.some_inj] at h
      rw [← h]
      simpa using hr

theorem bindFDataStep_noop (fdata : Option faceData) (next : Nat)
    (h : ∀ fd, fdata = some fd → fd.rebind = false) :
    bindFDataStep fdata next = (fdata, next, []) := by
  rcases fdata with _ | fd
  · rfl
  · simp only [bindFDataStep]
    rw [if_neg]
    simp [h fd rfl]

/-- C3: the dirty-flag protocol.  SetData on an initialized slot and
SetFaces on an initialized face channel set the mesh rebind flag; a
bind with no pending device error succeeds and leaves the mesh flag
clear; every per-buffer rebind flag is clear after the BindMesh channel
loop; and a second bind with no intervening data change issues zero
device upload (BufferData) calls, because the cleared per-buffer flags
gate the uploads in BindMesh. -/
theorem mesh_dirty_flag_protocol :
    (∀ (m : Mesh) (lloc : Nat) (p : Payload), (m.vdata.lookup lloc).isSome = true →
      (m.SetData lloc p).rebind = true) ∧
    (∀ (m : Mesh) (data : List Nat), m.faces.isSome = true →
      (m.SetFaces data).rebind = true) ∧
    (∀ (m : Mesh) (next : Nat), ((m.bind gl.NO_ERROR next).1).rebind = false ∧
      (m.bind gl.NO_ERROR next).2.1 = Except.ok ()) ∧
    (∀ (l : List (Nat × vertexData)) (next : Nat),
      ∀ q ∈ (bindVDataList l next).1, q.2.rebind = false) ∧
    (∀ (m : Mesh) (next next2 : Nat),
      uploadCalls (((m.bind gl.NO_ERROR next).1).bind gl.NO_ERROR next2).2.2 = 0) := by
  refine ⟨?_, ?_, ?_, bindVDataList_clean, ?_⟩
  · intro m lloc p h
    unfold Mesh.SetData
    rw [if_pos h]
  · intro m data h
    unfold Mesh.SetFaces
    rcases hf : m.faces with _ | fd
    · rw [hf] at h; simp at h
    · rfl
  · intro m next
    rw [Mesh_bind_noerr]
    exact ⟨rfl, rfl⟩
  · intro m next next2
    rw [Mesh_bind_noerr m next, Mesh_bind_noerr]
    have hv : ∀ q ∈ (bindVDataList m.vdata (if m.vao = 0 then next + 1 else next)).1,
        q.2.rebind = false := bindVDataList_clean _ _
    have hf : ∀ fd, (bindFDataStep m.faces
        (bindVDataList m.vdata (if m.vao = 0 then next + 1 else next)).2.1).1 = some fd →
        fd.rebind = false := fun fd h => bindFDataStep_clean _ _ fd h
    rw [bindVDataList_noop _ _ hv, bindFDataStep_noop _ _ hf]
    unfold uploadCalls
    simp only [List.filter_append, List.length_append]
    split_ifs <;> rfl

/-- A mesh with one initialized and filled attribute channel at layout
slot 0 (witness fixture for the dirty-flag claim). -/
def meshW : Mesh := (newMesh "m").InitData 0 3 gl.STATIC_DRAW false

/-- Witness for C3: SetData on the initialized slot 0 marks the mesh. -/
theorem mesh_dirty_flag_protocol_witness :
    (meshW.SetData 0 (Payload.floats [1, 2, 3])).rebind = true :=
  mesh_dirty_flag_protocol.1 meshW 0 (Payload.floats [1, 2, 3]) rfl

theorem BindMesh_err (glErr vao : Nat) (vdata : List (Nat × vertexData))
    (fdata : Option faceData) (next : Nat) (h : glErr ≠ gl.NO_ERROR) :
    opengl.BindMesh glErr vao vdata fdata next =
      (Except.error ("BindMesh: fix prior error " ++ toString glErr), []) := by
  unfold opengl.BindMesh
  rw [if_pos h]

/-- C10: Mesh.bind clears the mesh-level rebind flag before invoking
the engine bind and regardless of its outcome — in particular, when the
device bind fails fast on a pending device error, the mesh is still
left marked clean (only rebind changed), so nothing re-triggers an
upload until SetData or SetFaces marks it again. -/
theorem mesh_bind_clears_flag_regardless :
    (∀ (m : Mesh) (glErr next : Nat), ((m.bind glErr next).1).rebind = false) ∧
    (∀ (m : Mesh) (glErr next : Nat), glErr ≠ gl.NO_ERROR →
      (m.bind glErr next).2.1 =
        Except.error ("BindMesh: fix prior error " ++ toString glErr) ∧
      (m.bind glErr next).1 = { m with rebind := false }) := by
  constructor
  · intro m glErr next
    simp only [Mesh.bind]
    rcases hB : opengl.BindMesh glErr m.vao m.vdata m.faces next with
      ⟨e | ⟨vao2, vdata2, fdata2, next2⟩, t⟩
    · rfl
    · rfl
  · intro m glErr next h
    simp only [Mesh.bind]
    rw [BindMesh_err glErr m.vao m.vdata m.faces next h]
    exact ⟨rfl, rfl⟩

/-- Witness for C10 at a concrete mesh and a pending device error. -/
theorem mesh_bind_clears_flag_regardless_witness :
    ((meshW.SetData 0 (Payload.floats [1, 2, 3])).bind 1280 1).2.1 =
      Except.error ("BindMesh: fix prior error " ++ toString 1280) ∧
    ((meshW.SetData 0 (Payload.floats [1, 2, 3])).bind 1280 1).1 =
      { meshW.SetData 0 (Payload.floats [1, 2, 3]) with rebind := false } :=
  mesh_bind_clears_flag_regardless.2 (meshW.SetData 0 (Payload.floats [1, 2, 3])) 1280 1
    (by decide)

/-- The counterexample mesh for counts: an initialized, filled face
channel and a single attribute channel at layout slot 1 (none at 0). -/
def mesh9 : Mesh :=
  ((((newMesh "cex").InitFaces gl.STATIC_DRAW).SetFaces [0]).InitData 1 3
      gl.STATIC_DRAW false).SetData 1 (Payload.floats [1, 2, 3])

/-- C9 counterexample: a mesh with an initialized face buffer and one
initialized attribute channel — at slot 1 — makes counts dereference
the missing slot-0 entry (a nil-interface panic in Go, none in the
model) instead of returning the pair computed from that channel. -/
theorem counts_counterexample :
    mesh9.faces.isSome = true ∧ mesh9.vdata ≠ [] ∧ mesh9.counts = none := by
  refine ⟨rfl, by decide, rfl⟩

/-- C9 (amended): for every mesh with an initialized face buffer and a
channel initialized at layout slot 0, counts returns the face-buffer
length paired with the slot-0 vertex count; when channels exist but
slot 0 was never initialized, counts faults on a nil interface. -/
theorem counts_slot_zero (m : Mesh) (fd : faceData) (vd : vertexData)
    (hf : m.faces = some fd) (hv : m.vdata.lookup 0 = some vd) :
    m.counts = some (fd.Len, vd.Len) := by
  have hne : m.vdata ≠ [] := by
    intro h
    rw [h] at hv
    simp [List.lookup] at hv
  have hlen : 0 < m.vdata.length := List.length_pos.mpr hne
  unfold Mesh.counts
  rw [hf, hv, if_pos hlen]

/-- The witness mesh for counts: three faces and a slot-0 position
channel holding two vertices of three floats each. -/
def mesh9w : Mesh :=
  ((((newMesh "w").InitFaces gl.STATIC_DRAW).SetFaces [0, 1, 2]).InitData 0 3
      gl.STATIC_DRAW false).SetData 0 (Payload.floats [1, 2, 3, 4, 5, 6])

/-- Witness for C9: counts on the slot-0 mesh yields 3 faces and 2
vertices. -/
theorem counts_slot_zero_witness : mesh9w.counts = some (3, 2) :=
  counts_slot_zero mesh9w
    { usage := gl.STATIC_DRAW, data := [0, 1, 2], rebind := true, ref := 0 }
    { lloc := 0, span := 3, usage := gl.STATIC_DRAW, normalize := false,
      instanced := false, floats := [1, 2, 3, 4, 5, 6], bytes := [],
      rebind := true, ref := 0 }
    rfl rfl

/-- The camera at the origin with identity orientation. -/
def camIdent : Camera := { px := 0, py := 0, pz := 0, rot := fun v => v }

/-- C4: the front-cull predicate.  For a nonnegative configured radius,
Culled holds exactly when the squared straight-line distance from the
candidate to the point offset from the camera by the rotated vector
(0, 0, -0.8 * radius) exceeds the squared radius; consequently, for a
camera at the origin with identity orientation and radius 5, the
projected point is (0, 0, -4) and a candidate at squared distance just
below 25 from it is kept while one just above is culled. -/
theorem front_cull_predicate :
    (∀ (r : Rat) (cam : Camera) (wx wy wz : Rat), 0 ≤ r →
      ((NewFrontCull r).Culled cam wx wy wz = true ↔
        sqDist wx wy wz
          (cam.px + (cam.rot (0, 0, -(8 / 10) * r)).1)
          (cam.py + (cam.rot (0, 0, -(8 / 10) * r)).2.1)
          (cam.pz + (cam.rot (0, 0, -(8 / 10) * r)).2.2) > r * r)) ∧
    (NewFrontCull 5).Culled camIdent 0 (499 / 100) (-4) = false ∧
    (NewFrontCull 5).Culled camIdent 0 (501 / 100) (-4) = true := by
  have hiff : ∀ (r : Rat) (cam : Camera) (wx wy wz : Rat), 0 ≤ r →
      ((NewFrontCull r).Culled cam wx wy wz = true ↔
        sqDist wx wy wz
          (cam.px + (cam.rot (0, 0, -(8 / 10) * r)).1)
          (cam.py + (cam.rot (0, 0, -(8 / 10) * r)).2.1)
          (cam.pz + (cam.rot (0, 0, -(8 / 10) * r)).2.2) > r * r) := by
    intro r cam wx wy wz hr
    have hclamp : (if r < 0 then (0 : Rat) else r) = r := if_neg (not_lt.mpr hr)
    simp only [NewFrontCull, frontCull.Culled, MultSQ, hclamp]
    rw [show -r * (8 / 10 : Rat) = -(8 / 10 : Rat) * r from by ring]
    rcases hrot : cam.rot (0, 0, -(8 / 10 : Rat) * r) with ⟨cx, cy, cz⟩
    simp only [decide_eq_true_eq]
    have hdist : cam.Distance (wx - cx) (wy - cy) (wz - cz) =
        sqDist wx wy wz (cam.px + cx) (cam.py + cy) (cam.pz + cz) := by
      unfold Camera.Distance sqDist
      ring
    rw [hdist]
  refine ⟨hiff, ?_, ?_⟩
  · have h := hiff 5 camIdent 0 (499 / 100) (-4) (by norm_num)
    rw [Bool.eq_false_iff, ne_eq, h]
    simp only [camIdent]
    norm_num [sqDist]
  · have h := hiff 5 camIdent 0 (501 / 100) (-4) (by norm_num)
    rw [h]
    simp only [camIdent]
    norm_num [sqDist]

/-- C5: the radius-cull predicate.  For a nonnegative configured
radius, Culled holds exactly when the squared distance from the
candidate to the camera position exceeds the squared radius; for a
camera at the origin and radius 5, the candidate (3,3,0) is kept,
(4,4,0) is culled, and the boundary candidate (3,4,0) at distance
exactly 5 is kept because the comparison is strict. -/
theorem radius_cull_predicate :
    (∀ (r : Rat) (cam : Camera) (wx wy wz : Rat), 0 ≤ r →
      ((NewRadiusCull r).Culled cam wx wy wz = true ↔
        sqDist wx wy wz cam.px cam.py cam.pz > r * r)) ∧
    (NewRadiusCull 5).Culled camIdent 3 3 0 = false ∧
    (NewRadiusCull 5).Culled camIdent 4 4 0 = true ∧
    (NewRadiusCull 5).Culled camIdent 3 4 0 = false := by
  have hiff : ∀ (r : Rat) (cam : Camera) (wx wy wz : Rat), 0 ≤ r →
      ((NewRadiusCull r).Culled cam wx wy wz = true ↔
        sqDist wx wy wz cam.px cam.py cam.pz > r * r) := by
    intro r cam wx wy wz hr
    have hclamp : (if r < 0 then (0 : Rat) else r) = r := if_neg (not_lt.mpr hr)
    simp only [NewRadiusCull, radiusCull.Culled, hclamp, decide_eq_true_eq]
    have hdist : cam.Distance wx wy wz = sqDist wx wy wz cam.px cam.py cam.pz := by
      unfold Camera.Distance sqDist
      ring
    rw [hdist]
  refine ⟨hiff, ?_, ?_, ?_⟩
  · have h := hiff 5 camIdent 3 3 0 (by norm_num)
    rw [Bool.eq_false_iff, ne_eq, h]
    simp only [camIdent]
    norm_num [sqDist]
  · have h := hiff 5 camIdent 4 4 0 (by norm_num)
    rw [h]
    simp only [camIdent]
    norm_num [sqDist]
  · have h := hiff 5 camIdent 3 4 0 (by norm_num)
    rw [Bool.eq_false_iff, ne_eq, h]
    simp only [camIdent]
    norm_num [sqDist]

/-- Witness for C4: the predicate instantiated at radius 5, the
identity camera and the kept candidate. -/
theorem front_cull_predicate_witness :
    (NewFrontCull 5).Culled camIdent 0 0 (-4) = true ↔
      sqDist 0 0 (-4)
        (camIdent.px + (camIdent.rot (0, 0, -(8 / 10) * 5)).1)
        (camIdent.py + (camIdent.rot (0, 0, -(8 / 10) * 5)).2.1)
        (camIdent.pz + (camIdent.rot (0, 0, -(8 / 10) * 5)).2.2) > 5 * 5 :=
  front_cull_predicate.1 5 camIdent 0 0 (-4) (by norm_num)

/-- Witness for C5: the predicate instantiated at radius 5, the
identity camera and the boundary candidate. -/
theorem radius_cull_predicate_witness :
    (NewRadiusCull 5).Culled camIdent 3 4 0 = true ↔
      sqDist 3 4 0 camIdent.px camIdent.py camIdent.pz > 5 * 5 :=
  radius_cull_predicate.1 5 camIdent 3 4 0 (by norm_num)

/-- Predicate for pixel-upload device calls (gl.TexImage2D). -/
def isTexImage : GLCall → Bool
  | .TexImage2D _ _ _ _ _ _ _ _ => true
  | _ => false

/-- C6 counterexample: a call with no existing handle and an
unsupported image type returns the format error, yet a device texture
handle was generated (GenTextures appears in the trace) and handed
back, so a texture handle is created and left allocated by the failed
call. -/
theorem bindTexture_counterexample :
    (opengl.BindTexture gl.NO_ERROR 0 (Img.Other "*image.Gray" 4 4) 1).1 =
      Except.error "Unsupported image format *image.Gray" ∧
    (opengl.BindTexture gl.NO_ERROR 0 (Img.Other "*image.Gray" 4 4) 1).2.1 = 1 ∧
    GLCall.GenTextures 1 ∈
      (opengl.BindTexture gl.NO_ERROR 0 (Img.Other "*image.Gray" 4 4) 1).2.2.2 := by
  refine ⟨rfl, rfl, ?_⟩
  simp [opengl.BindTexture, gl.NO_ERROR]

/-- C6 (amended): an image that is neither RGBA nor NRGBA makes
BindTexture return the unsupported-image-format error and upload no
pixels — but when the incoming handle is zero the call has already
generated and bound a device texture handle before the format check,
and that handle is left allocated (the handle counter advanced and the
fresh handle is returned through tid). -/
theorem bindTexture_unsupported (glErr : Nat) (ty : String) (w h : Int) (next : Nat) :
    (opengl.BindTexture glErr 0 (Img.Other ty w h) next).1 =
      Except.error ("Unsupported image format " ++ ty) ∧
    (opengl.BindTexture glErr 0 (Img.Other ty w h) next).2.1 = next ∧
    (opengl.BindTexture glErr 0 (Img.Other ty w h) next).2.2.1 = next + 1 ∧
    GLCall.GenTextures next ∈ (opengl.BindTexture glErr 0 (Img.Other ty w h) next).2.2.2 ∧
    (opengl.BindTexture glErr 0 (Img.Other ty w h) next).2.2.2.filter isTexImage = [] := by
  unfold opengl.BindTexture
  refine ⟨?_, ?_, ?_, ?_, ?_⟩ <;> split_ifs <;> simp_all [isTexImage]

/-- Witness for C6 at a concrete unsupported image. -/
theorem bindTexture_unsupported_witness :
    (opengl.BindTexture gl.NO_ERROR 0 (Img.Other "*image.Gray16" 2 2) 7).1 =
      Except.error ("Unsupported image format " ++ "*image.Gray16") ∧
    (opengl.BindTexture gl.NO_ERROR 0 (Img.Other "*image.Gray16" 2 2) 7).2.1 = 7 ∧
    (opengl.BindTexture gl.NO_ERROR 0 (Img.Other "*image.Gray16" 2 2) 7).2.2.1 = 7 + 1 ∧
    GLCall.GenTextures 7 ∈
      (opengl.BindTexture gl.NO_ERROR 0 (Img.Other "*image.Gray16" 2 2) 7).2.2.2 ∧
    (opengl.BindTexture gl.NO_ERROR 0 (Img.Other "*image.Gray16" 2 2) 7).2.2.2.filter
      isTexImage = [] :=
  bindTexture_unsupported gl.NO_ERROR "*image.Gray16" 2 2 7

/-- C7: uniform dispatch for generic (non-special-cased) uniform names.
A supplied payload of length 16 binds as a 4x4 matrix, payloads of
length 1 through 4 bind as vectors of that arity, any other length is
reported as a binding anomaly and skipped (a log line, no uniform
call); a uniform with no supplied data is logged only; in every case
the loop continues with the remaining uniforms, and Render still
submits the draw after binding uniforms. -/
theorem uniform_dispatch :
    (∀ (d : Draw) (k : String) (ref : Int) (v : List Rat),
      k ≠ "bpos" → k ≠ "sm" → strStarts k "uv" = false →
      d.UniformData.lookup ref = some v → v.length = 16 →
      uniformKeyCalls d k ref = [.UniformMatrix4fv ref]) ∧
    (∀ (d : Draw) (k : String) (ref : Int) (v : List Rat),
      k ≠ "bpos" → k ≠ "sm" → strStarts k "uv" = false →
      d.UniformData.lookup ref = some v → v.length = 1 →
      uniformKeyCalls d k ref = [.Uniform1f ref (v.getD 0 0)]) ∧
    (∀ (d : Draw) (k : String) (ref : Int) (v : List Rat),
      k ≠ "bpos" → k ≠ "sm" → strStarts k "uv" = false →
      d.UniformData.lookup ref = some v → v.length = 2 →
      uniformKeyCalls d k ref = [.Uniform2f ref (v.getD 0 0) (v.getD 1 0)]) ∧
    (∀ (d : Draw) (k : String) (ref : Int) (v : List Rat),
      k ≠ "bpos" → k ≠ "sm" → strStarts k "uv" = false →
      d.UniformData.lookup ref = some v → v.length = 3 →
      uniformKeyCalls d k ref = [.Uniform3f ref (v.getD 0 0) (v.getD 1 0) (v.getD 2 0)]) ∧
    (∀ (d : Draw) (k : String) (ref : Int) (v : List Rat),
      k ≠ "bpos" → k ≠ "sm" → strStarts k "uv" = false →
      d.UniformData.lookup ref = some v → v.length = 4 →
      uniformKeyCalls d k ref =
        [.Uniform4f ref (v.getD 0 0) (v.getD 1 0) (v.getD 2 0) (v.getD 3 0)]) ∧
    (∀ (d : Draw) (k : String) (ref : Int) (v : List Rat),
      k ≠ "bpos" → k ≠ "sm" → strStarts k "uv" = false →
      d.UniformData.lookup ref = some v →
      v.length ≠ 1 → v.length ≠ 2 → v.length ≠ 3 → v.length ≠ 4 → v.length ≠ 16 →
      uniformKeyCalls d k ref =
        [.Log ("Failed to bind " ++ toString d.Tag ++ " " ++ k ++ " " ++
          toString v.length)]) ∧
    (∀ (d : Draw) (k : String) (ref : Int),
      k ≠ "bpos" → k ≠ "sm" → strStarts k "uv" = false →
      d.UniformData.lookup ref = none →
      uniformKeyCalls d k ref =
        [.Log ("No uniform data for " ++ toString d.Tag ++ " " ++ k)]) ∧
    (∀ (d : Draw) (k : String) (ref : Int) (rest : List (String × Int)),
      bindUniformsList d ((k, ref) :: rest) =
        uniformKeyCalls d k ref ++ bindUniformsList d rest) ∧
    (∀ (gc : opengl) (d : Draw),
      (opengl.Render gc d).2 =
        scissorOn d ++ depthCalls gc.depthTest d ++ fboCalls gc.fbo gc.vw gc.vh d ++
          shaderCalls gc.shader d ++ opengl.bindUniforms d ++
          ([.BindVertexArray d.Vao] ++ drawCalls d ++ [.BindVertexArray 0]) ++
          scissorOff d) := by
  refine ⟨?_, ?_, ?_, ?_, ?_, ?_, ?_, fun d k ref rest => rfl, opengl.Render_trace⟩
  · intro d k ref v hb hs hu hL hlen
    simp [uniformKeyCalls, hb, hs, hu, hL, hlen]
  · intro d k ref v hb hs hu hL hlen
    simp [uniformKeyCalls, hb, hs, hu, hL, hlen]
  · intro d k ref v hb hs hu hL hlen
    simp [uniformKeyCalls, hb, hs, hu, hL, hlen]
  · intro d k ref v hb hs hu hL hlen
    simp [uniformKeyCalls, hb, hs, hu, hL, hlen]
  · intro d k ref v hb hs hu hL hlen
    simp [uniformKeyCalls, hb, hs, hu, hL, hlen]
  · intro d k ref v hb hs hu hL h1 h2 h3 h4 h16
    simp [uniformKeyCalls, hb, hs, hu, hL, h1, h2, h3, h4, h16]
  · intro d k ref hb hs hu hL
    simp [uniformKeyCalls, hb, hs, hu, hL]

/-- Witness for C7: a generic uniform name with a 16-element payload
binds as a 4x4 matrix. -/
theorem uniform_dispatch_witness :
    uniformKeyCalls { drawBase with UniformData := [(3, List.replicate 16 0)] } "mvm" 3 =
      [.UniformMatrix4fv 3] :=
  uniform_dispatch.1 { drawBase with UniformData := [(3, List.replicate 16 0)] } "mvm" 3
    (List.replicate 16 0) (by decide) (by decide) (by decide) rfl rfl
